import Mathlib

/-!
Shallow embedding of the Market-King trading dashboard's calculation engine
(`src/lib/utils.ts`) and dashboard state controller
(`src/hooks/use-dashboard-state.ts`).

The repository's `utils.ts` contains two revisions of the calculation engine
(an earlier and a later variant of the same functions); they are embedded in
namespaces `Rev1` (the first variant in the file) and `Rev2` (the second).
JavaScript numbers are modelled as rationals (`ℚ`); the display formatting
`x.toFixed(n)` / `parseFloat(x.toFixed(n))` is modelled by decimal rounding
`roundTo n x`; the string sentinel `"-"` is modelled by `Option.none`.
-/

namespace MarketKing

/-- Model of JavaScript `parseFloat(x.toFixed(n))`: round `x` to `n` decimal
digits (round-half-up, which agrees with `toFixed` on the non-negative values
arising here). -/
def roundTo (n : ℕ) (q : ℚ) : ℚ := (round (q * 10 ^ n) : ℚ) / 10 ^ n

theorem roundTo_mono (n : ℕ) {a b : ℚ} (h : a ≤ b) : roundTo n a ≤ roundTo n b := by
  unfold roundTo
  have hpow : (0 : ℚ) < 10 ^ n := by positivity
  rw [div_le_div_iff_of_pos_right hpow]
  have : round (a * 10 ^ n) ≤ round (b * 10 ^ n) := by
    rw [round_eq, round_eq]
    exact Int.floor_mono (by nlinarith)
  exact_mod_cast this

theorem roundTo_eq_self (n : ℕ) (q : ℚ) (k : ℤ) (hk : q * 10 ^ n = (k : ℚ)) :
    roundTo n q = q := by
  have hpow : (10 : ℚ) ^ n ≠ 0 := by positivity
  unfold roundTo
  rw [hk, round_intCast]
  field_simp at hk ⊢
  linarith [hk]

/-- `instrumentType` from `src/lib/types.ts`. -/
inductive InstrumentType
  | volatility75
  | gold
deriving DecidableEq, Repr

/-- `TradeDirection` from `src/lib/types.ts`. -/
inductive TradeDirection
  | rise
  | fall
deriving DecidableEq, Repr

/-- `CompoundingFrequency` from `src/lib/types.ts`. -/
inductive CompoundingFrequency
  | daily
  | monthly
  | yearly
deriving DecidableEq, Repr

/-- `TradeDetail` from `src/lib/types.ts`; the formatted `lots`, `profit`,
`percent` strings are modelled by the rational values they denote. -/
structure TradeDetail where
  lots : ℚ
  profit : ℚ
  percent : ℚ
  status : String
  tradeNumber : ℕ
deriving DecidableEq, Repr

/-- `TradeGroup` from `src/lib/types.ts`. -/
structure TradeGroup where
  groupNumber : ℕ
  trades : List TradeDetail
  totalLots : ℚ
deriving DecidableEq, Repr

/-- The `Omit<TradePlan, 'completedTrades' | 'remainingTrades'>` value
returned by `calculateTradeGroupsLogic`. -/
structure TradePlanBase where
  dailyTarget : ℚ
  totalTradesRequired : ℕ
  groups : List TradeGroup
deriving DecidableEq, Repr

/-- `TradeCalculationParams` from `src/lib/types.ts` (`entryPrice` defaults
to 0; `customTP`/`customSL` being `undefined` is modelled by `none`). -/
structure TradeCalculationParams where
  entryPrice : ℚ := 0
  direction : TradeDirection
  customTP : Option ℚ := none
  customSL : Option ℚ := none
  currentBalance : ℚ
  instrumentType : InstrumentType
deriving DecidableEq, Repr

/-- `TradeCalculationResult` from `src/lib/types.ts`; the `"-"` sentinel
string for `tpCustom`/`slPrice` is modelled by `none`. -/
structure TradeCalculationResult where
  tpCustom : Option ℚ
  slPrice : Option ℚ
  calculatedLots : ℚ
deriving DecidableEq, Repr

/-- `CompoundingResult` from `src/lib/types.ts`; `"-"` modelled by `none`. -/
structure CompoundingResult where
  projectedBalance : Option ℚ
  totalGrowth : Option ℚ
deriving DecidableEq, Repr

/-- Number of fractional decimal digits of a rational (model of
`x.toString().split('.')[1]?.length` for the decimal-valued numbers that
occur in the program); fuel-bounded scan. -/
def fracDigitsAux : ℕ → ℚ → ℕ
  | 0, _ => 0
  | fuel + 1, q => if q.den = 1 then 0 else fracDigitsAux fuel (q * 10) + 1

def fracDigits (q : ℚ) : ℕ := fracDigitsAux 100 q

/-- The spec's `minLot` per instrument (0.01 for gold, 0.001 for V75). -/
def minLotFor : InstrumentType → ℚ
  | .gold => 1 / 100
  | .volatility75 => 1 / 1000

/-- The spec's `maxLot` per instrument (5 for both). -/
def maxLotFor : InstrumentType → ℚ
  | .gold => 5
  | .volatility75 => 5

namespace Rev1

-- Gold specific constants (first revision of `src/lib/utils.ts`)
def MIN_LOT_SIZE_GOLD : ℚ := 1 / 100
def MAX_LOT_SIZE_GOLD : ℚ := 5
def GOLD_LOT_PRECISION : ℕ := 2
def GOLD_PIP_TO_PRICE_FACTOR : ℚ := 1 / 100
def GOLD_VALUE_PER_PIP_PER_FULL_LOT : ℚ := 1
def GOLD_PIPS_FOR_TRADE_PLAN_PROFIT_CALC : ℚ := 500
def GOLD_LOT_CALC_DIVISOR_FOR_METRIC : ℚ := 500

-- Volatility 75 specific constants
def MIN_LOT_SIZE_V75 : ℚ := 1 / 1000
def MAX_LOT_SIZE_V75 : ℚ := 5
def V75_LOT_PRECISION : ℕ := 3
def V75_STRATEGY_SL_PIPS : ℚ := 1000
def V75_STRATEGY_TP_PIPS : ℚ := 2000
def V75_LOT_CALC_DIVISOR_FOR_METRIC : ℚ := 500
def V75_VALUE_PER_PIP_PER_FULL_LOT : ℚ := 1

/-- The minimum-lot `TradeDetail` pushed by both fallback paths of
`createTradeGroupForGold`. -/
def minGoldTrade (currentBalance : ℚ) : TradeDetail :=
  { lots := MIN_LOT_SIZE_GOLD
    profit := roundTo 2 (MIN_LOT_SIZE_GOLD * GOLD_PIPS_FOR_TRADE_PLAN_PROFIT_CALC *
      GOLD_VALUE_PER_PIP_PER_FULL_LOT)
    percent := roundTo 2 (MIN_LOT_SIZE_GOLD * GOLD_PIPS_FOR_TRADE_PLAN_PROFIT_CALC *
      GOLD_VALUE_PER_PIP_PER_FULL_LOT / currentBalance * 100)
    status := "🟡 Pending"
    tradeNumber := 0 }

/-- A regular `TradeDetail` pushed inside the gold while-loop. -/
def mkGoldTrade (currentBalance lotsForThisTrade : ℚ) : TradeDetail :=
  { lots := lotsForThisTrade
    profit := roundTo 2 (lotsForThisTrade * GOLD_PIPS_FOR_TRADE_PLAN_PROFIT_CALC *
      GOLD_VALUE_PER_PIP_PER_FULL_LOT)
    percent := roundTo 2 (lotsForThisTrade * GOLD_PIPS_FOR_TRADE_PLAN_PROFIT_CALC *
      GOLD_VALUE_PER_PIP_PER_FULL_LOT / currentBalance * 100)
    status := "🟡 Pending"
    tradeNumber := 0 }

/-- The `while (remainingLotsForGroup > 0 && tradeCounterInGroup < 100)` loop
of `createTradeGroupForGold`; `fuel = 100 - tradeCounterInGroup` is the
loop's own iteration bound (the source's "safety break"). -/
def goldLoop (currentBalance : ℚ) : ℕ → ℚ → List TradeDetail → List TradeDetail
  | 0, _, trades => trades
  | fuel + 1, remainingLotsForGroup, trades =>
    if 0 < remainingLotsForGroup then
      let lotsForThisTrade := roundTo GOLD_LOT_PRECISION
        (min MAX_LOT_SIZE_GOLD (max remainingLotsForGroup MIN_LOT_SIZE_GOLD))
      if lotsForThisTrade < MIN_LOT_SIZE_GOLD ∧ trades = [] then
        goldLoop currentBalance fuel 0 (trades ++ [minGoldTrade currentBalance])
      else if MIN_LOT_SIZE_GOLD ≤ lotsForThisTrade then
        goldLoop currentBalance fuel
          (roundTo (GOLD_LOT_PRECISION + 1) (remainingLotsForGroup - lotsForThisTrade))
          (trades ++ [mkGoldTrade currentBalance lotsForThisTrade])
      else trades
    else trades

/-- `createTradeGroupForGold` (first revision, gold branch of
`calculateTradeGroupsLogic`). -/
def createTradeGroupForGold (currentBalance : ℚ) (groupNumber : ℕ) : TradeGroup :=
  let targetProfitPerGroup := currentBalance * (1 / 100)
  let groupBaseLots :=
    max (targetProfitPerGroup /
      (GOLD_PIPS_FOR_TRADE_PLAN_PROFIT_CALC * GOLD_VALUE_PER_PIP_PER_FULL_LOT))
      MIN_LOT_SIZE_GOLD
  let trades0 := goldLoop currentBalance 100 groupBaseLots []
  let trades := if trades0 = [] then [minGoldTrade currentBalance] else trades0
  { groupNumber := groupNumber
    trades := trades
    totalLots := roundTo GOLD_LOT_PRECISION (trades.foldl (fun s t => s + t.lots) 0) }

/-- `calculateTradeGroupsLogic` (first revision of `src/lib/utils.ts`). -/
def calculateTradeGroupsLogic (currentBalance : ℚ) (instrumentType : InstrumentType) :
    TradePlanBase :=
  if currentBalance ≤ 0 then
    { dailyTarget := 0, totalTradesRequired := 0, groups := [] }
  else if instrumentType = InstrumentType.volatility75 then
    let riskPercentForLot : ℚ := 1 / 100
    let baseLots := currentBalance * riskPercentForLot / V75_LOT_CALC_DIVISOR_FOR_METRIC
    let lotsForTrade := roundTo V75_LOT_PRECISION
      (max MIN_LOT_SIZE_V75 (min baseLots MAX_LOT_SIZE_V75))
    let profitForTrade := lotsForTrade * V75_STRATEGY_TP_PIPS * V75_VALUE_PER_PIP_PER_FULL_LOT
    let percentForTrade := if 0 < currentBalance then profitForTrade / currentBalance * 100 else 0
    let tradeDetail : TradeDetail :=
      { lots := lotsForTrade
        profit := roundTo 2 profitForTrade
        percent := roundTo 2 percentForTrade
        status := "🟡 Pending"
        tradeNumber := 0 }
    let group : TradeGroup :=
      { groupNumber := 1, trades := [tradeDetail], totalLots := lotsForTrade }
    { dailyTarget := profitForTrade, totalTradesRequired := 1, groups := [group] }
  else
    let dailyTargetMonetaryGold := currentBalance * (2 / 100)
    let groups := [createTradeGroupForGold currentBalance 1,
                   createTradeGroupForGold currentBalance 2]
    let totalTradesRequired := groups.foldl (fun s g => s + g.trades.length) 0
    { dailyTarget := dailyTargetMonetaryGold
      totalTradesRequired := totalTradesRequired
      groups := groups }

/-- The per-instrument `pipToPriceFactor` of the first revision's
`calculateTradePointsLogic` (gold: 0.01; V75: 1 price unit per pip). -/
def pipToPriceFactor : InstrumentType → ℚ
  | .gold => GOLD_PIP_TO_PRICE_FACTOR
  | .volatility75 => 1

/-- `defaultTP` per instrument (gold strategy TP 200 pips, V75 2000). -/
def defaultTP : InstrumentType → ℚ
  | .gold => 200
  | .volatility75 => V75_STRATEGY_TP_PIPS

/-- `defaultSL` per instrument (gold strategy SL 100 pips, V75 1000). -/
def defaultSL : InstrumentType → ℚ
  | .gold => 100
  | .volatility75 => V75_STRATEGY_SL_PIPS

/-- `customTP !== undefined && customTP > 0 ? customTP : defaultTP`. -/
def actualCustomTP (params : TradeCalculationParams) : ℚ :=
  match params.customTP with
  | some t => if 0 < t then t else defaultTP params.instrumentType
  | none => defaultTP params.instrumentType

/-- `customSL !== undefined && customSL > 0 ? customSL : defaultSL`. -/
def actualCustomSL (params : TradeCalculationParams) : ℚ :=
  match params.customSL with
  | some t => if 0 < t then t else defaultSL params.instrumentType
  | none => defaultSL params.instrumentType

/-- The local `tpCustomVal` of `calculateTradePointsLogic`:
`direction === 'rise' ? entryPrice + tpCustomPriceMove : entryPrice - tpCustomPriceMove`. -/
def tpCustomVal (params : TradeCalculationParams) : ℚ :=
  let tpCustomPriceMove := actualCustomTP params * pipToPriceFactor params.instrumentType
  if params.direction = TradeDirection.rise then params.entryPrice + tpCustomPriceMove
  else params.entryPrice - tpCustomPriceMove

/-- The local `slVal` of `calculateTradePointsLogic`:
`direction === 'rise' ? entryPrice - slPriceMove : entryPrice + slPriceMove`. -/
def slVal (params : TradeCalculationParams) : ℚ :=
  let slPriceMove := actualCustomSL params * pipToPriceFactor params.instrumentType
  if params.direction = TradeDirection.rise then params.entryPrice - slPriceMove
  else params.entryPrice + slPriceMove

/-- Price output precision of the first revision: default 2 (gold) / 3 (V75),
overridden by the count of decimal digits of a nonzero fractional entry price. -/
def pricePrecision (instrumentType : InstrumentType) (entryPrice : ℚ) : ℕ :=
  let dflt : ℕ := if instrumentType = InstrumentType.gold then 2 else 3
  if entryPrice ≠ 0 ∧ entryPrice.den ≠ 1 then
    let d := fracDigits entryPrice
    if d = 0 then dflt else d
  else dflt

/-- `calculateTradePointsLogic` (first revision of `src/lib/utils.ts`). -/
def calculateTradePointsLogic (params : TradeCalculationParams) : TradeCalculationResult :=
  let entryPrice := params.entryPrice
  let lotPrecision : ℕ :=
    if params.instrumentType = InstrumentType.gold then GOLD_LOT_PRECISION else V75_LOT_PRECISION
  let minLot : ℚ :=
    if params.instrumentType = InstrumentType.gold then MIN_LOT_SIZE_GOLD else MIN_LOT_SIZE_V75
  let maxLot : ℚ :=
    if params.instrumentType = InstrumentType.gold then MAX_LOT_SIZE_GOLD else MAX_LOT_SIZE_V75
  let lotCalcDivisor : ℚ :=
    if params.instrumentType = InstrumentType.gold then GOLD_LOT_CALC_DIVISOR_FOR_METRIC
    else V75_LOT_CALC_DIVISOR_FOR_METRIC
  let baseLotsForCalculator := params.currentBalance * (1 / 100) / lotCalcDivisor
  let lotsToRecommend := roundTo lotPrecision (max minLot (min baseLotsForCalculator maxLot))
  let pp := pricePrecision params.instrumentType entryPrice
  { tpCustom := if 0 < entryPrice then some (roundTo pp (tpCustomVal params)) else none
    slPrice := if 0 < entryPrice then some (roundTo pp (slVal params)) else none
    calculatedLots :=
      if 0 < params.currentBalance ∧ 0 < entryPrice then lotsToRecommend else 0 }

/-- `calculateCompoundingLogic`'s frequency-to-days conversion (identical in
both revisions): daily = periods, monthly = periods×20, yearly = periods×250. -/
def daysFor : CompoundingFrequency → ℕ → ℕ
  | .daily, periods => periods
  | .monthly, periods => periods * 20
  | .yearly, periods => periods * 250

/-- The fixed `dailyGrowthRate = 1.02`. -/
def dailyGrowthRate : ℚ := 102 / 100

/-- The numeric `projectedBalance` local of `calculateCompoundingLogic`:
`initialBalance * Math.pow(dailyGrowthRate, days)`. -/
def projectedBalanceValue (initialBalance : ℚ) (frequency : CompoundingFrequency)
    (periods : ℕ) : ℚ :=
  initialBalance * dailyGrowthRate ^ daysFor frequency periods

/-- `calculateCompoundingLogic` (identical in both revisions of
`src/lib/utils.ts`); `periods` is the positive whole number of periods. -/
def calculateCompoundingLogic (initialBalance : ℚ) (frequency : CompoundingFrequency)
    (periods : ℕ) : CompoundingResult :=
  if initialBalance ≤ 0 ∨ periods = 0 then
    { projectedBalance := none, totalGrowth := none }
  else
    let pb := projectedBalanceValue initialBalance frequency periods
    { projectedBalance := some (roundTo 2 pb)
      totalGrowth := some (roundTo 2 (pb - initialBalance)) }

end Rev1

namespace Rev2

-- Gold specific constants (second revision of `src/lib/utils.ts`)
def MIN_LOT_SIZE_GOLD : ℚ := 1 / 100
def MAX_LOT_SIZE_GOLD : ℚ := 5
def GOLD_LOT_PRECISION : ℕ := 2
def GOLD_PIP_TO_PRICE_FACTOR : ℚ := 1 / 10
def GOLD_VALUE_PER_PIP_PER_STANDARD_LOT : ℚ := 10
def GOLD_STRATEGY_SL_PIPS_FOR_PLAN : ℚ := 100
def GOLD_STRATEGY_TP_PIPS_FOR_PLAN : ℚ := 200

-- Volatility 75 specific constants
def MIN_LOT_SIZE_V75 : ℚ := 1 / 1000
def MAX_LOT_SIZE_V75 : ℚ := 5
def V75_LOT_PRECISION : ℕ := 3
def V75_STRATEGY_SL_PIPS_FOR_PLAN : ℚ := 1000
def V75_STRATEGY_TP_PIPS_FOR_PLAN : ℚ := 2000
def V75_LOT_CALC_BASE_PIPS_FOR_1_PERCENT_RISK : ℚ := 500
def V75_VALUE_PER_PIP_PER_FULL_LOT : ℚ := 1

/-- `calculateTradeGroupsLogic` (second revision: both branches build a
single-trade plan whose `dailyTarget` is that trade's profit). -/
def calculateTradeGroupsLogic (currentBalance : ℚ) (instrumentType : InstrumentType) :
    TradePlanBase :=
  if currentBalance ≤ 0 then
    { dailyTarget := 0, totalTradesRequired := 0, groups := [] }
  else if instrumentType = InstrumentType.volatility75 then
    let baseLots := currentBalance * (1 / 100) / V75_LOT_CALC_BASE_PIPS_FOR_1_PERCENT_RISK
    let lotsForTrade := roundTo V75_LOT_PRECISION
      (max MIN_LOT_SIZE_V75 (min baseLots MAX_LOT_SIZE_V75))
    let profitForTrade := lotsForTrade * V75_STRATEGY_TP_PIPS_FOR_PLAN *
      V75_VALUE_PER_PIP_PER_FULL_LOT
    let percentForTrade := if 0 < currentBalance then profitForTrade / currentBalance * 100 else 0
    let tradeDetail : TradeDetail :=
      { lots := lotsForTrade
        profit := roundTo 2 profitForTrade
        percent := roundTo 2 percentForTrade
        status := "🟡 Pending"
        tradeNumber := 0 }
    let group : TradeGroup :=
      { groupNumber := 1, trades := [tradeDetail], totalLots := lotsForTrade }
    { dailyTarget := profitForTrade, totalTradesRequired := 1, groups := [group] }
  else
    let amountToRisk := currentBalance * (1 / 100)
    let baseLotsGold := amountToRisk /
      (GOLD_STRATEGY_SL_PIPS_FOR_PLAN * GOLD_VALUE_PER_PIP_PER_STANDARD_LOT)
    let lotsForTrade := roundTo GOLD_LOT_PRECISION
      (max MIN_LOT_SIZE_GOLD (min baseLotsGold MAX_LOT_SIZE_GOLD))
    let profitForTrade := lotsForTrade * GOLD_STRATEGY_TP_PIPS_FOR_PLAN *
      GOLD_VALUE_PER_PIP_PER_STANDARD_LOT
    let percentForTrade := if 0 < currentBalance then profitForTrade / currentBalance * 100 else 0
    let tradeDetail : TradeDetail :=
      { lots := lotsForTrade
        profit := roundTo 2 profitForTrade
        percent := roundTo 2 percentForTrade
        status := "🟡 Pending"
        tradeNumber := 0 }
    let group : TradeGroup :=
      { groupNumber := 1, trades := [tradeDetail], totalLots := lotsForTrade }
    { dailyTarget := profitForTrade, totalTradesRequired := 1, groups := [group] }

/-- `pipToPriceFactor` per instrument, second revision (gold: 0.10). -/
def pipToPriceFactor : InstrumentType → ℚ
  | .gold => GOLD_PIP_TO_PRICE_FACTOR
  | .volatility75 => 1

/-- `defaultTPPips` per instrument, second revision. -/
def defaultTPPips : InstrumentType → ℚ
  | .gold => GOLD_STRATEGY_TP_PIPS_FOR_PLAN
  | .volatility75 => V75_STRATEGY_TP_PIPS_FOR_PLAN

/-- `defaultSLPips` per instrument, second revision. -/
def defaultSLPips : InstrumentType → ℚ
  | .gold => GOLD_STRATEGY_SL_PIPS_FOR_PLAN
  | .volatility75 => V75_STRATEGY_SL_PIPS_FOR_PLAN

/-- `customTP !== undefined && customTP > 0 ? customTP : defaultTPPips`. -/
def actualCustomTP (params : TradeCalculationParams) : ℚ :=
  match params.customTP with
  | some t => if 0 < t then t else defaultTPPips params.instrumentType
  | none => defaultTPPips params.instrumentType

/-- `customSL !== undefined && customSL > 0 ? customSL : defaultSLPips`. -/
def actualCustomSL (params : TradeCalculationParams) : ℚ :=
  match params.customSL with
  | some t => if 0 < t then t else defaultSLPips params.instrumentType
  | none => defaultSLPips params.instrumentType

/-- The local `tpCustomVal` of the second revision's
`calculateTradePointsLogic`. -/
def tpCustomVal (params : TradeCalculationParams) : ℚ :=
  let tpCustomPriceMove := actualCustomTP params * pipToPriceFactor params.instrumentType
  if params.direction = TradeDirection.rise then params.entryPrice + tpCustomPriceMove
  else params.entryPrice - tpCustomPriceMove

/-- The local `slVal` of the second revision's `calculateTradePointsLogic`. -/
def slVal (params : TradeCalculationParams) : ℚ :=
  let slPriceMove := actualCustomSL params * pipToPriceFactor params.instrumentType
  if params.direction = TradeDirection.rise then params.entryPrice - slPriceMove
  else params.entryPrice + slPriceMove

/-- `calculatedLotsString` of the second revision (gold sizes from the custom
stop-loss distance; V75 from the fixed 500-pip rule). -/
def calculatedLotsValue (params : TradeCalculationParams) : ℚ :=
  match params.instrumentType with
  | .gold =>
    let slPipsForLot :=
      match params.customSL with
      | some t => if 0 < t then t else defaultSLPips InstrumentType.gold
      | none => defaultSLPips InstrumentType.gold
    let amountToRisk := params.currentBalance * (1 / 100)
    let baseLots := amountToRisk / (slPipsForLot * GOLD_VALUE_PER_PIP_PER_STANDARD_LOT)
    roundTo GOLD_LOT_PRECISION (max MIN_LOT_SIZE_GOLD (min baseLots MAX_LOT_SIZE_GOLD))
  | .volatility75 =>
    let baseLots := params.currentBalance * (1 / 100) / V75_LOT_CALC_BASE_PIPS_FOR_1_PERCENT_RISK
    roundTo V75_LOT_PRECISION (max MIN_LOT_SIZE_V75 (min baseLots MAX_LOT_SIZE_V75))

/-- Price output precision of the second revision (gold: 2; V75 fractional:
digit count; V75 whole number: 1; V75 zero entry: 3). -/
def pricePrecision (instrumentType : InstrumentType) (entryPrice : ℚ) : ℕ :=
  if entryPrice = 0 then (if instrumentType = InstrumentType.gold then 2 else 3)
  else if entryPrice.den ≠ 1 then
    let d := fracDigits entryPrice
    if d = 0 then (if instrumentType = InstrumentType.gold then 2 else 3) else d
  else if instrumentType = InstrumentType.gold then 2 else 1

/-- `calculateTradePointsLogic` (second revision of `src/lib/utils.ts`). -/
def calculateTradePointsLogic (params : TradeCalculationParams) : TradeCalculationResult :=
  let entryPrice := params.entryPrice
  let pp := pricePrecision params.instrumentType entryPrice
  { tpCustom := if 0 < entryPrice then some (roundTo pp (tpCustomVal params)) else none
    slPrice := if 0 < entryPrice then some (roundTo pp (slVal params)) else none
    calculatedLots :=
      if 0 < params.currentBalance ∧ 0 < entryPrice then calculatedLotsValue params else 0 }

end Rev2

/-!
Model of the Dashboard State Controller (`src/hooks/use-dashboard-state.ts`).
Calendar dates (the values of `new Date().toDateString()`) are modelled as
natural numbers compared only for equality. A controller state carries the
React state (`currentBalance`, `tradesToday`, `lastTradeDate`) together with
the corresponding persisted local-storage values; the persisting `useEffect`s
(which run to completion after each event) are folded into each operation.
-/

/-- The state of the Dashboard State Controller: React state plus the
persisted `<instrument>_currentBalance`, `<instrument>_tradesToday` and
`<instrument>_lastTradeDate` local-storage entries. -/
structure DashState where
  currentBalance : ℚ
  tradesToday : ℤ
  lastTradeDate : ℕ
  storedBalance : ℚ
  storedTradesToday : ℤ
  storedLastTradeDate : ℕ
deriving DecidableEq, Repr

/-- The date-rollover `useEffect` (lines 44-52 of the hook): if today's date
differs from `lastTradeDate`, reset the trade counter to 0 and persist both
the counter and the new date; otherwise do nothing. -/
def rolloverCheck (today : ℕ) (s : DashState) : DashState :=
  if today ≠ s.lastTradeDate then
    { s with tradesToday := 0, lastTradeDate := today,
             storedTradesToday := 0, storedLastTradeDate := today }
  else s

/-- `handleUpdateBalance` (lines 102-118 of the hook), with the persisting
`useEffect`s for balance and counter folded in: same-day reset of the counter
when the date rolled over, then increment the counter when the new balance
differs from the in-memory balance or from the persisted balance, then store
the new counter and balance. -/
def handleUpdateBalance (today : ℕ) (newBalance : ℚ) (s : DashState) : DashState :=
  let resetNeeded := today ≠ s.lastTradeDate
  let t0 : ℤ := if resetNeeded then 0 else s.tradesToday
  let date1 := if resetNeeded then today else s.lastTradeDate
  let storedDate1 := if resetNeeded then today else s.storedLastTradeDate
  let t1 : ℤ :=
    if newBalance ≠ s.currentBalance ∨ s.storedBalance ≠ newBalance then t0 + 1 else t0
  { currentBalance := newBalance
    tradesToday := t1
    lastTradeDate := date1
    storedBalance := newBalance
    storedTradesToday := t1
    storedLastTradeDate := storedDate1 }

/-- Reachable controller states: a mounted state (the mount effect loads
balance, counter and date from storage — the counter ever stored by the
controller is a natural number — and the persisting effects write the loaded
values straight back, so memory and storage agree), closed under the
date-rollover check and `handleUpdateBalance`. -/
inductive Reachable : DashState → Prop
  | init (b : ℚ) (n : ℕ) (d : ℕ) : Reachable ⟨b, n, d, b, n, d⟩
  | rollover (today : ℕ) {s : DashState} : Reachable s → Reachable (rolloverCheck today s)
  | update (today : ℕ) (newBalance : ℚ) {s : DashState} :
      Reachable s → Reachable (handleUpdateBalance today newBalance s)

/-- Invariant of reachable controller states: the persisted balance agrees
with the in-memory balance and the trade counter is non-negative. -/
theorem reachable_invariant {s : DashState} (hs : Reachable s) :
    s.storedBalance = s.currentBalance ∧ 0 ≤ s.tradesToday := by
  induction hs with
  | init b n d => exact ⟨rfl, Int.natCast_nonneg n⟩
  | rollover today hs ih =>
    unfold rolloverCheck
    split
    · exact ⟨ih.1, le_refl 0⟩
    · exact ih
  | update today newBalance hs ih =>
    unfold handleUpdateBalance
    refine ⟨rfl, ?_⟩
    dsimp only
    split
    · split
      · linarith
      · linarith [ih.2]
    · split
      · exact le_refl 0
      · exact ih.2

/-!
Model of the end-of-month reminder (`checkEndOfMonthReminder`, lines 120-141
of the hook). The recorded `eomReminder_<year>_<month>` flags are modelled as
the list of `(year, month)` pairs already set in local storage.
-/

/-- A calendar date as seen by `checkEndOfMonthReminder` (`month` is the
JavaScript 0-based month). -/
structure EomDate where
  year : ℕ
  month : ℕ
  day : ℕ
deriving DecidableEq, Repr

/-- Gregorian leap-year test, as implemented by the JavaScript `Date`. -/
def isLeapYear (y : ℕ) : Bool := y % 4 = 0 ∧ (y % 100 ≠ 0 ∨ y % 400 = 0)

/-- `new Date(year, month + 1, 0).getDate()`: the number of days in the
0-based `month` of `year`. -/
def lastDayOfMonth (year month : ℕ) : ℕ :=
  match month with
  | 0 => 31
  | 1 => if isLeapYear year then 29 else 28
  | 2 => 31
  | 3 => 30
  | 4 => 31
  | 5 => 30
  | 6 => 31
  | 7 => 31
  | 8 => 30
  | 9 => 31
  | 10 => 30
  | _ => 31

/-- `checkEndOfMonthReminder`: on the last day of the month, if no
`eomReminder_<year>_<month>` flag is recorded, emit the toast (`true`) and
record the flag; otherwise emit nothing. -/
def checkEndOfMonthReminder (today : EomDate) (flags : List (ℕ × ℕ)) :
    Bool × List (ℕ × ℕ) :=
  if today.day = lastDayOfMonth today.year today.month then
    if (today.year, today.month) ∈ flags then (false, flags)
    else (true, (today.year, today.month) :: flags)
  else (false, flags)

/-- Run a sequence of end-of-month checks, counting emitted notifications. -/
def runReminderChecks : List EomDate → List (ℕ × ℕ) → ℕ × List (ℕ × ℕ)
  | [], flags => (0, flags)
  | d :: ds, flags =>
    let r := checkEndOfMonthReminder d flags
    let rest := runReminderChecks ds r.2
    ((if r.1 then 1 else 0) + rest.1, rest.2)

theorem checkEOM_flags_mono {today : EomDate} {flags : List (ℕ × ℕ)} {p : ℕ × ℕ}
    (hp : p ∈ flags) : p ∈ (checkEndOfMonthReminder today flags).2 := by
  unfold checkEndOfMonthReminder
  split
  · split
    · exact hp
    · exact List.mem_cons_of_mem _ hp
  · exact hp

theorem runReminderChecks_zero_of_mem {y m : ℕ} (dates : List EomDate)
    (flags : List (ℕ × ℕ)) (hmem : (y, m) ∈ flags)
    (hdates : ∀ d ∈ dates, d.year = y ∧ d.month = m) :
    (runReminderChecks dates flags).1 = 0 := by
  induction dates generalizing flags with
  | nil => rfl
  | cons d ds ih =>
    have hd := hdates d (List.mem_cons_self d ds)
    have hno : (checkEndOfMonthReminder d flags).1 = false := by
      unfold checkEndOfMonthReminder
      split
      · rw [if_pos]
        rw [hd.1, hd.2]
        exact hmem
      · rfl
    have hmem2 : (y, m) ∈ (checkEndOfMonthReminder d flags).2 :=
      checkEOM_flags_mono hmem
    have := ih (checkEndOfMonthReminder d flags).2 hmem2
      (fun e he => hdates e (List.mem_cons_of_mem _ he))
    simp only [runReminderChecks, hno, this]
    rfl

/-- The lot size of the first trade of the first group of a plan (0 for an
empty plan). -/
def planFirstLots (p : TradePlanBase) : ℚ :=
  match p.groups with
  | [] => 0
  | g :: _ =>
    match g.trades with
    | [] => 0
    | t :: _ => t.lots

/-- Per-instrument pip value used by the second revision's trade plan. -/
def Rev2.planPipValue : InstrumentType → ℚ
  | .gold => Rev2.GOLD_VALUE_PER_PIP_PER_STANDARD_LOT
  | .volatility75 => Rev2.V75_VALUE_PER_PIP_PER_FULL_LOT

/-- Per-instrument take-profit pips used by the second revision's trade plan. -/
def Rev2.planTPPips : InstrumentType → ℚ
  | .gold => Rev2.GOLD_STRATEGY_TP_PIPS_FOR_PLAN
  | .volatility75 => Rev2.V75_STRATEGY_TP_PIPS_FOR_PLAN

theorem roundTo_eval (n : ℕ) (q r : ℚ) (k : ℤ) (h1 : q * 10 ^ n = (k : ℚ))
    (h2 : (k : ℚ) = r * 10 ^ n) : roundTo n q = r := by
  have hpow : (10 : ℚ) ^ n ≠ 0 := by positivity
  unfold roundTo
  rw [h1, round_intCast, h2]
  field_simp

theorem roundTo_hundredth : roundTo 2 (1 / 100 : ℚ) = 1 / 100 :=
  roundTo_eval 2 _ _ 1 (by norm_num) (by norm_num)

theorem roundTo_two_five : roundTo 2 (5 : ℚ) = 5 :=
  roundTo_eval 2 _ _ 500 (by norm_num) (by norm_num)

theorem roundTo_thousandth : roundTo 3 (1 / 1000 : ℚ) = 1 / 1000 :=
  roundTo_eval 3 _ _ 1 (by norm_num) (by norm_num)

theorem roundTo_three_five : roundTo 3 (5 : ℚ) = 5 :=
  roundTo_eval 3 _ _ 5000 (by norm_num) (by norm_num)

/-- Rounding the clamp `max lo (min x hi)` stays within `[lo, hi]` when the
bounds are exactly representable at the rounding precision. -/
theorem roundTo_clamp_bounds (n : ℕ) (lo hi x : ℚ) (hlohi : lo ≤ hi)
    (hlo : roundTo n lo = lo) (hhi : roundTo n hi = hi) :
    lo ≤ roundTo n (max lo (min x hi)) ∧ roundTo n (max lo (min x hi)) ≤ hi := by
  constructor
  · calc lo = roundTo n lo := hlo.symm
    _ ≤ roundTo n (max lo (min x hi)) := roundTo_mono n (le_max_left _ _)
  · calc roundTo n (max lo (min x hi)) ≤ roundTo n hi :=
      roundTo_mono n (max_le hlohi (min_le_right _ _))
    _ = hi := hhi

/-- Rounding the clamp `min hi (max x lo)` stays within `[lo, hi]` when the
bounds are exactly representable at the rounding precision. -/
theorem roundTo_clamp_bounds' (n : ℕ) (lo hi x : ℚ) (hlohi : lo ≤ hi)
    (hlo : roundTo n lo = lo) (hhi : roundTo n hi = hi) :
    lo ≤ roundTo n (min hi (max x lo)) ∧ roundTo n (min hi (max x lo)) ≤ hi := by
  constructor
  · calc lo = roundTo n lo := hlo.symm
    _ ≤ roundTo n (min hi (max x lo)) :=
      roundTo_mono n (le_min hlohi (le_max_right _ _))
  · calc roundTo n (min hi (max x lo)) ≤ roundTo n hi :=
      roundTo_mono n (min_le_left _ _)
    _ = hi := hhi

theorem Rev1.defaultTP_pos (i : InstrumentType) : 0 < Rev1.defaultTP i := by
  cases i <;> norm_num [Rev1.defaultTP, Rev1.V75_STRATEGY_TP_PIPS]

theorem Rev1.defaultSL_pos (i : InstrumentType) : 0 < Rev1.defaultSL i := by
  cases i <;> norm_num [Rev1.defaultSL, Rev1.V75_STRATEGY_SL_PIPS]

theorem Rev1.actualCustomTP_pos (p : TradeCalculationParams) : 0 < Rev1.actualCustomTP p := by
  unfold Rev1.actualCustomTP
  rcases hc : p.customTP with _ | t
  · simp only
    exact Rev1.defaultTP_pos _
  · simp only
    split
    · assumption
    · exact Rev1.defaultTP_pos _

theorem Rev1.actualCustomSL_pos (p : TradeCalculationParams) : 0 < Rev1.actualCustomSL p := by
  unfold Rev1.actualCustomSL
  rcases hc : p.customSL with _ | t
  · simp only
    exact Rev1.defaultSL_pos _
  · simp only
    split
    · assumption
    · exact Rev1.defaultSL_pos _

theorem Rev1.pipToPriceFactor_pos (i : InstrumentType) : 0 < Rev1.pipToPriceFactor i := by
  cases i <;> norm_num [Rev1.pipToPriceFactor, Rev1.GOLD_PIP_TO_PRICE_FACTOR]

theorem Rev2.defaultTPPips_pos (i : InstrumentType) : 0 < Rev2.defaultTPPips i := by
  cases i <;> norm_num [Rev2.defaultTPPips, Rev2.GOLD_STRATEGY_TP_PIPS_FOR_PLAN,
    Rev2.V75_STRATEGY_TP_PIPS_FOR_PLAN]

theorem Rev2.defaultSLPips_pos (i : InstrumentType) : 0 < Rev2.defaultSLPips i := by
  cases i <;> norm_num [Rev2.defaultSLPips, Rev2.GOLD_STRATEGY_SL_PIPS_FOR_PLAN,
    Rev2.V75_STRATEGY_SL_PIPS_FOR_PLAN]

theorem Rev2.actualCustomTPPips_pos (p : TradeCalculationParams) : 0 < Rev2.actualCustomTP p := by
  unfold Rev2.actualCustomTP
  rcases hc : p.customTP with _ | t
  · simp only
    exact Rev2.defaultTPPips_pos _
  · simp only
    split
    · assumption
    · exact Rev2.defaultTPPips_pos _

theorem Rev2.actualCustomSLPips_pos (p : TradeCalculationParams) : 0 < Rev2.actualCustomSL p := by
  unfold Rev2.actualCustomSL
  rcases hc : p.customSL with _ | t
  · simp only
    exact Rev2.defaultSLPips_pos _
  · simp only
    split
    · assumption
    · exact Rev2.defaultSLPips_pos _

theorem Rev2.pipToPriceFactorPlan_pos (i : InstrumentType) : 0 < Rev2.pipToPriceFactor i := by
  cases i <;> norm_num [Rev2.pipToPriceFactor, Rev2.GOLD_PIP_TO_PRICE_FACTOR]

/-- Claim C2: for every balance `b ≤ 0` and either instrument, both revisions
of `calculateTradeGroupsLogic` return a plan with `dailyTarget = 0`,
`totalTradesRequired = 0` and an empty `groups` list. -/
theorem claim_C2_nonpositive_balance_empty_plan (b : ℚ) (hb : b ≤ 0)
    (inst : InstrumentType) :
    Rev1.calculateTradeGroupsLogic b inst = ⟨0, 0, []⟩ ∧
    Rev2.calculateTradeGroupsLogic b inst = ⟨0, 0, []⟩ := by
  constructor
  · unfold Rev1.calculateTradeGroupsLogic
    rw [if_pos hb]
  · unfold Rev2.calculateTradeGroupsLogic
    rw [if_pos hb]

/-- Witness for C2 at the concrete balance 0. -/
theorem claim_C2_witness :
    Rev1.calculateTradeGroupsLogic 0 InstrumentType.gold = ⟨0, 0, []⟩ ∧
    Rev2.calculateTradeGroupsLogic 0 InstrumentType.gold = ⟨0, 0, []⟩ :=
  claim_C2_nonpositive_balance_empty_plan 0 (le_refl 0) InstrumentType.gold

/-- Claim C9: for a fixed positive initial balance and any frequency, the
numeric projected balance `initialBalance * 1.02 ^ steps` computed by
`calculateCompoundingLogic` is strictly increasing in the number of periods. -/
theorem claim_C9_compounding_monotone (b : ℚ) (f : CompoundingFrequency)
    (p1 p2 : ℕ) (hb : 0 < b) (_hp1 : 0 < p1) (h12 : p1 < p2) :
    Rev1.projectedBalanceValue b f p1 < Rev1.projectedBalanceValue b f p2 := by
  unfold Rev1.projectedBalanceValue
  apply mul_lt_mul_of_pos_left _ hb
  apply pow_lt_pow_right₀ (by norm_num [Rev1.dailyGrowthRate])
  cases f <;> simp [Rev1.daysFor] <;> omega

/-- Witness for C9 at balance 100, daily frequency, periods 1 < 2. -/
theorem claim_C9_witness :
    (0 : ℚ) < 100 ∧ 0 < 1 ∧ 1 < 2 ∧
    Rev1.projectedBalanceValue 100 CompoundingFrequency.daily 1 <
      Rev1.projectedBalanceValue 100 CompoundingFrequency.daily 2 :=
  ⟨by norm_num, by norm_num, by norm_num,
   claim_C9_compounding_monotone 100 CompoundingFrequency.daily 1 2
     (by norm_num) (by norm_num) (by norm_num)⟩

/-- Claim C6: in both revisions of `calculateTradePointsLogic`, for any input
with `entryPrice > 0` (the take-profit and stop-loss pip distances are
positive for every input, since non-positive custom values fall back to the
positive instrument defaults): with direction `rise` the computed take-profit
price `tpCustomVal` is strictly above `entryPrice` and the stop-loss price
`slVal` strictly below; with direction `fall` both inequalities invert. -/
theorem claim_C6_trade_levels (p : TradeCalculationParams) (_he : 0 < p.entryPrice) :
    (p.direction = TradeDirection.rise →
      p.entryPrice < Rev1.tpCustomVal p ∧ Rev1.slVal p < p.entryPrice ∧
      p.entryPrice < Rev2.tpCustomVal p ∧ Rev2.slVal p < p.entryPrice) ∧
    (p.direction = TradeDirection.fall →
      Rev1.tpCustomVal p < p.entryPrice ∧ p.entryPrice < Rev1.slVal p ∧
      Rev2.tpCustomVal p < p.entryPrice ∧ p.entryPrice < Rev2.slVal p) := by
  have h1 := mul_pos (Rev1.actualCustomTP_pos p) (Rev1.pipToPriceFactor_pos p.instrumentType)
  have h2 := mul_pos (Rev1.actualCustomSL_pos p) (Rev1.pipToPriceFactor_pos p.instrumentType)
  have h3 := mul_pos (Rev2.actualCustomTPPips_pos p) (Rev2.pipToPriceFactorPlan_pos p.instrumentType)
  have h4 := mul_pos (Rev2.actualCustomSLPips_pos p) (Rev2.pipToPriceFactorPlan_pos p.instrumentType)
  constructor <;> intro hd <;>
    refine ⟨?_, ?_, ?_, ?_⟩ <;>
    simp only [Rev1.tpCustomVal, Rev1.slVal, Rev2.tpCustomVal, Rev2.slVal, hd] <;>
    simp <;> linarith

/-- Witness for C6 at a concrete rise-direction gold input. -/
theorem claim_C6_witness :
    (0 : ℚ) < 100 ∧
    ((100 : ℚ) <
      Rev1.tpCustomVal ⟨100, TradeDirection.rise, some 50, some 30, 1000, InstrumentType.gold⟩ ∧
     Rev1.slVal ⟨100, TradeDirection.rise, some 50, some 30, 1000, InstrumentType.gold⟩ < 100 ∧
     (100 : ℚ) <
      Rev2.tpCustomVal ⟨100, TradeDirection.rise, some 50, some 30, 1000, InstrumentType.gold⟩ ∧
     Rev2.slVal ⟨100, TradeDirection.rise, some 50, some 30, 1000, InstrumentType.gold⟩ < 100) :=
  ⟨by norm_num,
   (claim_C6_trade_levels ⟨100, TradeDirection.rise, some 50, some 30, 1000, InstrumentType.gold⟩
     (by norm_num)).1 rfl⟩

/-- Counterexample to C4 as stated: at entry price 100 and balance 0 (gold),
both revisions return computed take-profit and stop-loss prices, not the
`"-"` sentinel — a zero balance does not degrade the price outputs. -/
theorem claim_C4_counterexample :
    (⟨100, TradeDirection.rise, none, none, 0, InstrumentType.gold⟩ :
      TradeCalculationParams).currentBalance = 0 ∧
    (Rev1.calculateTradePointsLogic
      ⟨100, TradeDirection.rise, none, none, 0, InstrumentType.gold⟩).tpCustom = some 102 ∧
    (Rev1.calculateTradePointsLogic
      ⟨100, TradeDirection.rise, none, none, 0, InstrumentType.gold⟩).slPrice = some 99 ∧
    (Rev2.calculateTradePointsLogic
      ⟨100, TradeDirection.rise, none, none, 0, InstrumentType.gold⟩).tpCustom = some 120 ∧
    (Rev2.calculateTradePointsLogic
      ⟨100, TradeDirection.rise, none, none, 0, InstrumentType.gold⟩).slPrice = some 90 := by
  have hden : (100 : ℚ).den = 1 := rfl
  have htp1 : Rev1.tpCustomVal
      ⟨100, TradeDirection.rise, none, none, 0, InstrumentType.gold⟩ = 102 := by
    simp [Rev1.tpCustomVal, Rev1.actualCustomTP, Rev1.defaultTP, Rev1.pipToPriceFactor,
      Rev1.GOLD_PIP_TO_PRICE_FACTOR]
    norm_num
  have hsl1 : Rev1.slVal
      ⟨100, TradeDirection.rise, none, none, 0, InstrumentType.gold⟩ = 99 := by
    simp [Rev1.slVal, Rev1.actualCustomSL, Rev1.defaultSL, Rev1.pipToPriceFactor,
      Rev1.GOLD_PIP_TO_PRICE_FACTOR]
    norm_num
  have htp2 : Rev2.tpCustomVal
      ⟨100, TradeDirection.rise, none, none, 0, InstrumentType.gold⟩ = 120 := by
    simp [Rev2.tpCustomVal, Rev2.actualCustomTP, Rev2.defaultTPPips, Rev2.pipToPriceFactor,
      Rev2.GOLD_PIP_TO_PRICE_FACTOR, Rev2.GOLD_STRATEGY_TP_PIPS_FOR_PLAN]
    norm_num
  have hsl2 : Rev2.slVal
      ⟨100, TradeDirection.rise, none, none, 0, InstrumentType.gold⟩ = 90 := by
    simp [Rev2.slVal, Rev2.actualCustomSL, Rev2.defaultSLPips, Rev2.pipToPriceFactor,
      Rev2.GOLD_PIP_TO_PRICE_FACTOR, Rev2.GOLD_STRATEGY_SL_PIPS_FOR_PLAN]
    norm_num
  have hpp1 : Rev1.pricePrecision InstrumentType.gold 100 = 2 := by
    simp [Rev1.pricePrecision, hden]
  have hpp2 : Rev2.pricePrecision InstrumentType.gold 100 = 2 := by
    simp [Rev2.pricePrecision, hden]
  have hpos : (0 : ℚ) < 100 := by norm_num
  refine ⟨rfl, ?_, ?_, ?_, ?_⟩ <;>
    simp only [Rev1.calculateTradePointsLogic, Rev2.calculateTradePointsLogic,
      htp1, hsl1, htp2, hsl2, hpp1, hpp2] <;>
    rw [if_pos hpos] <;>
    refine congrArg some ?_
  · exact roundTo_eval 2 _ _ 10200 (by norm_num) (by norm_num)
  · exact roundTo_eval 2 _ _ 9900 (by norm_num) (by norm_num)
  · exact roundTo_eval 2 _ _ 12000 (by norm_num) (by norm_num)
  · exact roundTo_eval 2 _ _ 9000 (by norm_num) (by norm_num)

/-- Claim C4, amended: in both revisions of `calculateTradePointsLogic`, the
take-profit and stop-loss price outputs are the `"-"` sentinel exactly when
`entryPrice ≤ 0` (in particular when it is 0); the balance being 0 does not
produce the price sentinel — it only degrades `calculatedLots` to zero. -/
theorem claim_C4_amended (p : TradeCalculationParams) :
    ((Rev1.calculateTradePointsLogic p).tpCustom = none ↔ p.entryPrice ≤ 0) ∧
    ((Rev1.calculateTradePointsLogic p).slPrice = none ↔ p.entryPrice ≤ 0) ∧
    ((Rev2.calculateTradePointsLogic p).tpCustom = none ↔ p.entryPrice ≤ 0) ∧
    ((Rev2.calculateTradePointsLogic p).slPrice = none ↔ p.entryPrice ≤ 0) := by
  rcases lt_or_le 0 p.entryPrice with h | h
  · have h' : ¬ p.entryPrice ≤ 0 := not_le.mpr h
    simp [Rev1.calculateTradePointsLogic, Rev2.calculateTradePointsLogic, h, h']
  · have h' : ¬ 0 < p.entryPrice := not_lt.mpr h
    simp [Rev1.calculateTradePointsLogic, Rev2.calculateTradePointsLogic, h, h']

/-- Counterexample to C5 as stated: at balance 1000 on volatility75 (first
revision), the plan's `dailyTarget` is 40 — the single planned trade's
profit, about 4% of balance — and not `1000 × 2% = 20`. -/
theorem claim_C5_counterexample :
    (Rev1.calculateTradeGroupsLogic 1000 InstrumentType.volatility75).dailyTarget = 40 ∧
    (1000 : ℚ) * (2 / 100) = 20 ∧ (40 : ℚ) ≠ 20 := by
  have h0 : ¬ (1000 : ℚ) ≤ 0 := by norm_num
  have hclamp : max Rev1.MIN_LOT_SIZE_V75
      (min ((1000 : ℚ) * (1 / 100) / Rev1.V75_LOT_CALC_DIVISOR_FOR_METRIC)
        Rev1.MAX_LOT_SIZE_V75) = 1 / 50 := by
    norm_num [Rev1.MIN_LOT_SIZE_V75, Rev1.MAX_LOT_SIZE_V75,
      Rev1.V75_LOT_CALC_DIVISOR_FOR_METRIC, max_def, min_def]
  have hr : roundTo 3 (1 / 50 : ℚ) = 1 / 50 :=
    roundTo_eval 3 _ _ 20 (by norm_num) (by norm_num)
  refine ⟨?_, by norm_num, by norm_num⟩
  unfold Rev1.calculateTradeGroupsLogic
  rw [if_neg h0, if_pos rfl]
  dsimp only
  rw [show Rev1.V75_LOT_PRECISION = 3 from rfl, hclamp, hr]
  norm_num [Rev1.V75_STRATEGY_TP_PIPS, Rev1.V75_VALUE_PER_PIP_PER_FULL_LOT]

/-- Claim C5, amended: for every balance `b > 0`, the first revision's gold
plan has `dailyTarget = b × 2%`, computed independently of the per-trade
profits; but the first revision's volatility75 plan and both branches of the
second revision instead set `dailyTarget` to the single planned trade's
profit (its lot size × take-profit pips × pip value), which need not equal
`b × 2%`. -/
theorem claim_C5_amended (b : ℚ) (hb : 0 < b) :
    (Rev1.calculateTradeGroupsLogic b InstrumentType.gold).dailyTarget = b * (2 / 100) ∧
    (Rev1.calculateTradeGroupsLogic b InstrumentType.volatility75).dailyTarget =
      planFirstLots (Rev1.calculateTradeGroupsLogic b InstrumentType.volatility75) *
        Rev1.V75_STRATEGY_TP_PIPS * Rev1.V75_VALUE_PER_PIP_PER_FULL_LOT ∧
    (∀ inst, (Rev2.calculateTradeGroupsLogic b inst).dailyTarget =
      planFirstLots (Rev2.calculateTradeGroupsLogic b inst) *
        Rev2.planTPPips inst * Rev2.planPipValue inst) := by
  have hb' : ¬ b ≤ 0 := not_le.mpr hb
  refine ⟨?_, ?_, ?_⟩
  · unfold Rev1.calculateTradeGroupsLogic
    rw [if_neg hb', if_neg (by simp)]
  · unfold Rev1.calculateTradeGroupsLogic planFirstLots
    rw [if_neg hb', if_pos rfl]
  · intro inst
    cases inst <;>
      · unfold Rev2.calculateTradeGroupsLogic planFirstLots Rev2.planTPPips Rev2.planPipValue
        rw [if_neg hb']
        simp

/-- Witness for the amended C5 at the concrete balance 1000. -/
theorem claim_C5_amended_witness :
    (0 : ℚ) < 1000 ∧
    (Rev1.calculateTradeGroupsLogic 1000 InstrumentType.gold).dailyTarget = 1000 * (2 / 100) ∧
    (Rev2.calculateTradeGroupsLogic 1000 InstrumentType.gold).dailyTarget =
      planFirstLots (Rev2.calculateTradeGroupsLogic 1000 InstrumentType.gold) *
        Rev2.planTPPips InstrumentType.gold * Rev2.planPipValue InstrumentType.gold :=
  ⟨by norm_num, (claim_C5_amended 1000 (by norm_num)).1,
   (claim_C5_amended 1000 (by norm_num)).2.2 InstrumentType.gold⟩

theorem minGoldTrade_lots_bounds (b : ℚ) :
    Rev1.MIN_LOT_SIZE_GOLD ≤ (Rev1.minGoldTrade b).lots ∧
    (Rev1.minGoldTrade b).lots ≤ Rev1.MAX_LOT_SIZE_GOLD := by
  constructor <;>
    norm_num [Rev1.minGoldTrade, Rev1.MIN_LOT_SIZE_GOLD, Rev1.MAX_LOT_SIZE_GOLD]

theorem roundTo_goldClamp_le (rem : ℚ) :
    roundTo Rev1.GOLD_LOT_PRECISION
      (min Rev1.MAX_LOT_SIZE_GOLD (max rem Rev1.MIN_LOT_SIZE_GOLD)) ≤
      Rev1.MAX_LOT_SIZE_GOLD :=
  (roundTo_clamp_bounds' Rev1.GOLD_LOT_PRECISION Rev1.MIN_LOT_SIZE_GOLD
    Rev1.MAX_LOT_SIZE_GOLD rem
    (by norm_num [Rev1.MIN_LOT_SIZE_GOLD, Rev1.MAX_LOT_SIZE_GOLD])
    roundTo_hundredth roundTo_two_five).2

/-- Every trade pushed by the gold while-loop (on top of trades already
satisfying the bound) has its lot size within `[0.01, 5]`. -/
theorem goldLoop_lots_bounds (b : ℚ) (fuel : ℕ) :
    ∀ (rem : ℚ) (acc : List TradeDetail),
      (∀ t ∈ acc, Rev1.MIN_LOT_SIZE_GOLD ≤ t.lots ∧ t.lots ≤ Rev1.MAX_LOT_SIZE_GOLD) →
      ∀ t ∈ Rev1.goldLoop b fuel rem acc,
        Rev1.MIN_LOT_SIZE_GOLD ≤ t.lots ∧ t.lots ≤ Rev1.MAX_LOT_SIZE_GOLD := by
  induction fuel with
  | zero =>
    intro rem acc hacc
    simpa [Rev1.goldLoop] using hacc
  | succ fuel ih =>
    intro rem acc hacc
    simp only [Rev1.goldLoop]
    split
    · split
      · apply ih
        intro t ht
        rcases List.mem_append.mp ht with h | h
        · exact hacc t h
        · rw [List.mem_singleton.mp h]
          exact minGoldTrade_lots_bounds b
      · split
        · next hge =>
          apply ih
          intro t ht
          rcases List.mem_append.mp ht with h | h
          · exact hacc t h
          · rw [List.mem_singleton.mp h]
            exact ⟨hge, roundTo_goldClamp_le rem⟩
        · exact hacc
    · exact hacc

/-- Every trade of a first-revision gold trade group has its lot size within
`[0.01, 5]`. -/
theorem createTradeGroupForGold_lots_bounds (b : ℚ) (k : ℕ) :
    ∀ t ∈ (Rev1.createTradeGroupForGold b k).trades,
      Rev1.MIN_LOT_SIZE_GOLD ≤ t.lots ∧ t.lots ≤ Rev1.MAX_LOT_SIZE_GOLD := by
  intro t ht
  unfold Rev1.createTradeGroupForGold at ht
  dsimp only at ht
  split at ht
  · rw [List.mem_singleton.mp ht]
    exact minGoldTrade_lots_bounds b
  · exact goldLoop_lots_bounds b 100 _ [] (by simp) t ht

/-- Counterexample to C1 as stated: at balance 1000 > 0 with `entryPrice`
left at its default 0, `calculateTradePointsLogic` returns
`calculatedLots = 0`, which is below the gold minimum lot 0.01. -/
theorem claim_C1_counterexample :
    (0 : ℚ) < 1000 ∧
    (Rev1.calculateTradePointsLogic
      ⟨0, TradeDirection.rise, none, none, 1000, InstrumentType.gold⟩).calculatedLots = 0 ∧
    ¬ minLotFor InstrumentType.gold ≤
      (Rev1.calculateTradePointsLogic
        ⟨0, TradeDirection.rise, none, none, 1000, InstrumentType.gold⟩).calculatedLots := by
  have h : (Rev1.calculateTradePointsLogic
      ⟨0, TradeDirection.rise, none, none, 1000, InstrumentType.gold⟩).calculatedLots = 0 := by
    simp [Rev1.calculateTradePointsLogic]
  refine ⟨by norm_num, h, ?_⟩
  rw [h]
  norm_num [minLotFor]

/-- Claim C1, amended: for every balance `b > 0` and both instruments, every
`TradeDetail.lots` in the plan returned by the first revision's
`calculateTradeGroupsLogic` lies within `[minLot, maxLot]`; and the
`calculatedLots` of `calculateTradePointsLogic` lies within that range
whenever additionally `entryPrice > 0` (with `entryPrice ≤ 0` it is the zero
sentinel instead). -/
theorem claim_C1_amended (b : ℚ) (hb : 0 < b) (inst : InstrumentType) :
    (∀ g ∈ (Rev1.calculateTradeGroupsLogic b inst).groups, ∀ t ∈ g.trades,
      minLotFor inst ≤ t.lots ∧ t.lots ≤ maxLotFor inst) ∧
    (∀ p : TradeCalculationParams, p.currentBalance = b → p.instrumentType = inst →
      0 < p.entryPrice →
      minLotFor inst ≤ (Rev1.calculateTradePointsLogic p).calculatedLots ∧
      (Rev1.calculateTradePointsLogic p).calculatedLots ≤ maxLotFor inst) := by
  have hb' : ¬ b ≤ 0 := not_le.mpr hb
  constructor
  · intro g hg t ht
    cases inst with
    | volatility75 =>
      rw [Rev1.calculateTradeGroupsLogic, if_neg hb', if_pos rfl] at hg
      dsimp only at hg
      rw [List.mem_singleton.mp hg] at ht
      dsimp only at ht
      rw [List.mem_singleton.mp ht]
      dsimp only
      have := roundTo_clamp_bounds Rev1.V75_LOT_PRECISION Rev1.MIN_LOT_SIZE_V75
        Rev1.MAX_LOT_SIZE_V75
        (b * (1 / 100) / Rev1.V75_LOT_CALC_DIVISOR_FOR_METRIC)
        (by norm_num [Rev1.MIN_LOT_SIZE_V75, Rev1.MAX_LOT_SIZE_V75])
        roundTo_thousandth roundTo_three_five
      exact ⟨this.1, this.2⟩
    | gold =>
      rw [Rev1.calculateTradeGroupsLogic, if_neg hb', if_neg (by simp)] at hg
      dsimp only at hg
      have hbounds : Rev1.MIN_LOT_SIZE_GOLD ≤ t.lots ∧ t.lots ≤ Rev1.MAX_LOT_SIZE_GOLD := by
        rcases List.mem_cons.mp hg with hg' | hg'
        · exact createTradeGroupForGold_lots_bounds b 1 t (hg' ▸ ht)
        · rw [List.mem_singleton.mp hg'] at ht
          exact createTradeGroupForGold_lots_bounds b 2 t ht
      exact hbounds
  · intro p hpb hpinst hpe
    have hcond : 0 < p.currentBalance ∧ 0 < p.entryPrice := ⟨hpb ▸ hb, hpe⟩
    cases inst with
    | volatility75 =>
      rw [Rev1.calculateTradePointsLogic]
      dsimp only
      rw [hpinst, if_pos hcond]
      try simp only [reduceIte]
      have := roundTo_clamp_bounds Rev1.V75_LOT_PRECISION Rev1.MIN_LOT_SIZE_V75
        Rev1.MAX_LOT_SIZE_V75
        (p.currentBalance * (1 / 100) / Rev1.V75_LOT_CALC_DIVISOR_FOR_METRIC)
        (by norm_num [Rev1.MIN_LOT_SIZE_V75, Rev1.MAX_LOT_SIZE_V75])
        roundTo_thousandth roundTo_three_five
      simpa [minLotFor, maxLotFor, Rev1.MIN_LOT_SIZE_V75, Rev1.MAX_LOT_SIZE_V75] using this
    | gold =>
      rw [Rev1.calculateTradePointsLogic]
      dsimp only
      rw [hpinst, if_pos hcond]
      try simp only [reduceIte]
      have := roundTo_clamp_bounds Rev1.GOLD_LOT_PRECISION Rev1.MIN_LOT_SIZE_GOLD
        Rev1.MAX_LOT_SIZE_GOLD
        (p.currentBalance * (1 / 100) / Rev1.GOLD_LOT_CALC_DIVISOR_FOR_METRIC)
        (by norm_num [Rev1.MIN_LOT_SIZE_GOLD, Rev1.MAX_LOT_SIZE_GOLD])
        roundTo_hundredth roundTo_two_five
      simpa [minLotFor, maxLotFor, Rev1.MIN_LOT_SIZE_GOLD, Rev1.MAX_LOT_SIZE_GOLD] using this

/-- Witness for the amended C1 at balance 1000, gold, entry price 100. -/
theorem claim_C1_amended_witness :
    (0 : ℚ) < 1000 ∧
    (minLotFor InstrumentType.gold ≤
      (Rev1.calculateTradePointsLogic
        ⟨100, TradeDirection.rise, none, none, 1000, InstrumentType.gold⟩).calculatedLots ∧
     (Rev1.calculateTradePointsLogic
        ⟨100, TradeDirection.rise, none, none, 1000, InstrumentType.gold⟩).calculatedLots ≤
      maxLotFor InstrumentType.gold) :=
  ⟨by norm_num,
   (claim_C1_amended 1000 (by norm_num) InstrumentType.gold).2
     ⟨100, TradeDirection.rise, none, none, 1000, InstrumentType.gold⟩
     rfl rfl (by norm_num)⟩

/-- The gold while-loop adds at most `fuel` trades. -/
theorem goldLoop_length_le (b : ℚ) (fuel : ℕ) :
    ∀ (rem : ℚ) (acc : List TradeDetail),
      (Rev1.goldLoop b fuel rem acc).length ≤ acc.length + fuel := by
  induction fuel with
  | zero =>
    intro rem acc
    simp [Rev1.goldLoop]
  | succ fuel ih =>
    intro rem acc
    simp only [Rev1.goldLoop]
    split
    · split
      · calc (Rev1.goldLoop b fuel 0 (acc ++ [Rev1.minGoldTrade b])).length ≤
            (acc ++ [Rev1.minGoldTrade b]).length + fuel := ih _ _
        _ = acc.length + (fuel + 1) := by simp; omega
      · split
        · calc (Rev1.goldLoop b fuel _ (acc ++ [Rev1.mkGoldTrade b _])).length ≤
              (acc ++ [Rev1.mkGoldTrade b _]).length + fuel := ih _ _
          _ = acc.length + (fuel + 1) := by simp; omega
        · omega
    · omega

theorem createTradeGroupForGold_size (b : ℚ) (k : ℕ) :
    1 ≤ (Rev1.createTradeGroupForGold b k).trades.length ∧
    (Rev1.createTradeGroupForGold b k).trades.length ≤ 100 := by
  unfold Rev1.createTradeGroupForGold
  dsimp only
  split
  · simp
  · next h =>
    constructor
    · exact List.length_pos.mpr h
    · simpa using goldLoop_length_le b 100 _ []

/-- Claim C10: for every balance `b > 0`, the per-group trade-construction
loop of the first revision's gold branch terminates (it is embedded as a
total function, the source's own `tradeCounterInGroup < 100` safety break
being the structural bound), and each constructed group — in particular both
groups of the returned gold plan — contains between 1 and 100 trades. -/
theorem claim_C10_gold_group_size (b : ℚ) (_hb : 0 < b) :
    (∀ k : ℕ, 1 ≤ (Rev1.createTradeGroupForGold b k).trades.length ∧
      (Rev1.createTradeGroupForGold b k).trades.length ≤ 100) ∧
    (∀ g ∈ (Rev1.calculateTradeGroupsLogic b InstrumentType.gold).groups,
      1 ≤ g.trades.length ∧ g.trades.length ≤ 100) := by
  refine ⟨fun k => createTradeGroupForGold_size b k, ?_⟩
  intro g hg
  rw [Rev1.calculateTradeGroupsLogic, if_neg (not_le.mpr _hb), if_neg (by simp)] at hg
  dsimp only at hg
  rcases List.mem_cons.mp hg with hg' | hg'
  · exact hg' ▸ createTradeGroupForGold_size b 1
  · rw [List.mem_singleton.mp hg']
    exact createTradeGroupForGold_size b 2

/-- Witness for C10 at the concrete balance 1000. -/
theorem claim_C10_witness :
    (0 : ℚ) < 1000 ∧
    (1 ≤ (Rev1.createTradeGroupForGold 1000 1).trades.length ∧
     (Rev1.createTradeGroupForGold 1000 1).trades.length ≤ 100) :=
  ⟨by norm_num, (claim_C10_gold_group_size 1000 (by norm_num)).1 1⟩

/-- Claim C3: in every reachable controller state, `handleUpdateBalance`
increments the trade counter by exactly one when the new value differs from
the current balance (on top of any same-day reset of the counter), and
leaves the counter unchanged when the new value equals the current balance. -/
theorem claim_C3_update_balance_counter (s : DashState) (hs : Reachable s)
    (today : ℕ) (newValue : ℚ) :
    (handleUpdateBalance today newValue s).tradesToday =
      (if today = s.lastTradeDate then s.tradesToday else 0) +
      (if newValue = s.currentBalance then 0 else 1) := by
  have hsb := (reachable_invariant hs).1
  unfold handleUpdateBalance
  dsimp only
  rw [hsb]
  by_cases hd : today = s.lastTradeDate <;> by_cases hv : newValue = s.currentBalance <;>
    simp [hd, hv]

/-- Witness for C3: a same-day update to a different balance takes the
counter from 2 to 3. -/
theorem claim_C3_witness :
    (handleUpdateBalance 5 101 ⟨100, 2, 5, 100, 2, 5⟩).tradesToday = 3 := by
  have h := claim_C3_update_balance_counter ⟨100, 2, 5, 100, 2, 5⟩
    (Reachable.init 100 2 5) 5 101
  rw [h]
  norm_num

/-- Claim C7: in every reachable controller state the trade counter is
non-negative; the date-rollover check resets the counter to 0 (and persists
the new date) exactly when today differs from the stored last-trade date, is
the identity while the date is unchanged, and is idempotent. -/
theorem claim_C7_counter_reset :
    (∀ s, Reachable s → 0 ≤ s.tradesToday) ∧
    (∀ (today : ℕ) (s : DashState), today ≠ s.lastTradeDate →
      (rolloverCheck today s).tradesToday = 0 ∧
      (rolloverCheck today s).lastTradeDate = today ∧
      (rolloverCheck today s).storedTradesToday = 0 ∧
      (rolloverCheck today s).storedLastTradeDate = today) ∧
    (∀ (today : ℕ) (s : DashState), today = s.lastTradeDate →
      rolloverCheck today s = s) ∧
    (∀ (today : ℕ) (s : DashState),
      rolloverCheck today (rolloverCheck today s) = rolloverCheck today s) := by
  refine ⟨fun s hs => (reachable_invariant hs).2, ?_, ?_, ?_⟩
  · intro today s h
    unfold rolloverCheck
    rw [if_pos h]
    exact ⟨rfl, rfl, rfl, rfl⟩
  · intro today s h
    unfold rolloverCheck
    rw [if_neg (not_not_intro h)]
  · intro today s
    by_cases h : today ≠ s.lastTradeDate <;> simp [rolloverCheck, h]

/-- Witness for C7 at a concrete state (last trade date 5, counter 2). -/
theorem claim_C7_witness :
    0 ≤ (⟨100, 2, 5, 100, 2, 5⟩ : DashState).tradesToday ∧
    (rolloverCheck 6 ⟨100, 2, 5, 100, 2, 5⟩).tradesToday = 0 ∧
    rolloverCheck 5 ⟨100, 2, 5, 100, 2, 5⟩ = ⟨100, 2, 5, 100, 2, 5⟩ ∧
    rolloverCheck 6 (rolloverCheck 6 ⟨100, 2, 5, 100, 2, 5⟩) =
      rolloverCheck 6 ⟨100, 2, 5, 100, 2, 5⟩ :=
  ⟨claim_C7_counter_reset.1 _ (Reachable.init 100 2 5),
   (claim_C7_counter_reset.2.1 6 _ (by decide)).1,
   claim_C7_counter_reset.2.2.1 5 _ rfl,
   claim_C7_counter_reset.2.2.2 6 _⟩

theorem checkEOM_emit_mem (today : EomDate) (flags : List (ℕ × ℕ)) :
    (checkEndOfMonthReminder today flags).1 = true →
    (today.year, today.month) ∈ (checkEndOfMonthReminder today flags).2 := by
  unfold checkEndOfMonthReminder
  split
  · split
    · simp
    · intro _
      exact List.mem_cons_self _ _
  · simp

/-- Claim C8: within one `(year, month)` pair, the end-of-month reminder is
emitted at most once across any sequence of checks; and once the month's
flag is recorded, no further check in that month emits it. -/
theorem claim_C8_eom_once (y m : ℕ) (dates : List EomDate) (flags : List (ℕ × ℕ))
    (hdates : ∀ d ∈ dates, d.year = y ∧ d.month = m) :
    ((y, m) ∈ flags → (runReminderChecks dates flags).1 = 0) ∧
    (runReminderChecks dates flags).1 ≤ 1 := by
  refine ⟨fun hmem => runReminderChecks_zero_of_mem dates flags hmem hdates, ?_⟩
  induction dates generalizing flags with
  | nil => simp [runReminderChecks]
  | cons d ds ih =>
    have hd := hdates d (List.mem_cons_self d ds)
    have hds : ∀ e ∈ ds, e.year = y ∧ e.month = m :=
      fun e he => hdates e (List.mem_cons_of_mem _ he)
    by_cases hemit : (checkEndOfMonthReminder d flags).1 = true
    · have hmem : (y, m) ∈ (checkEndOfMonthReminder d flags).2 := by
        have h := checkEOM_emit_mem d flags hemit
        rwa [hd.1, hd.2] at h
      have hzero := runReminderChecks_zero_of_mem ds _ hmem hds
      simp [runReminderChecks, hemit, hzero]
    · have hf : (checkEndOfMonthReminder d flags).1 = false :=
        Bool.not_eq_true _ ▸ hemit
      have hrest := ih (checkEndOfMonthReminder d flags).2 hds
      simp only [runReminderChecks, hf]
      simpa using hrest

/-- Witness for C8: two checks on 31 January 2024 with no flag recorded
emit at most one notification. -/
theorem claim_C8_witness :
    (runReminderChecks [⟨2024, 0, 31⟩, ⟨2024, 0, 31⟩] []).1 ≤ 1 :=
  (claim_C8_eom_once 2024 0 [⟨2024, 0, 31⟩, ⟨2024, 0, 31⟩] [] (by decide)).2

end MarketKing
